import Mathlib

/-!
Shallow embedding of `crates/vive-hid/src/lib.rs` (VivePro2-Linux-Driver).

Bytes are modelled as `Nat` (all wire values are < 256); a 64-byte HID
report is a `List Nat` of length 64.  Rust `Result` values are modelled by
`VResult`, which has two extra outcomes beyond `ok`/`err`:

* `crash`   — a Rust panic (out-of-bounds slice / `copy_from_slice`
  length mismatch); the source functions index fixed buffers without
  always checking bounds, so this outcome is reachable;
* `diverge` — loop fuel exhausted; the source `while`/`loop` constructs
  are modelled with explicit fuel because a misbehaving transport can
  make them spin forever.

The HID transport (hidapi), zlib inflation and JSON parsing are external
collaborators of this crate; they are passed in as capability parameters
(state-transition functions for the transport, `Option`-returning
decoders), exactly at the call sites where the source calls into them.
-/

namespace ViveHid

/-- The `Error` enum of the source (the `Hid` payload is dropped: the
underlying `HidError` is opaque to this crate). -/
inductive Error : Type where
  | Hid : Error
  | DeviceNotFound : Error
  | NotAVive : Error
  | ConfigSizeMismatch : Error
  | ConfigReadFailed : Error
  | ProtocolError : String → Error
deriving DecidableEq, Repr

/-- Outcome of running a piece of the driver: Rust `Ok`, Rust `Err`,
a Rust panic (`crash`), or fuel exhaustion of a source-level loop
(`diverge`). -/
inductive VResult (α : Type) : Type where
  | ok : α → VResult α
  | err : Error → VResult α
  | crash : VResult α
  | diverge : VResult α
deriving DecidableEq, Repr

/-- Sequencing that propagates `err`/`crash`/`diverge`, mirroring `?` in
the source. -/
def VResult.bind {α β : Type} : VResult α → (α → VResult β) → VResult β
  | .ok a, f => f a
  | .err e, _ => .err e
  | .crash, _ => .crash
  | .diverge, _ => .diverge

@[simp] theorem VResult.bind_ok {α β : Type} (a : α) (f : α → VResult β) :
    VResult.bind (.ok a) f = f a := rfl

@[simp] theorem VResult.bind_err {α β : Type} (e : Error) (f : α → VResult β) :
    VResult.bind (.err e) f = .err e := rfl

@[simp] theorem VResult.bind_crash {α β : Type} (f : α → VResult β) :
    VResult.bind (.crash) f = .crash := rfl

@[simp] theorem VResult.bind_diverge {α β : Type} (f : α → VResult β) :
    VResult.bind (.diverge) f = .diverge := rfl

/-! ### Byte helpers -/

/-- `u32::to_le_bytes (n as u32)`: the four little-endian base-256 digits.
For every `n`, digit `i` of `n % 2^32` equals `n / 256^i % 256` (`i ≤ 3`),
so no explicit truncation is needed. -/
def le32 (n : Nat) : List Nat :=
  [n % 256, n / 256 % 256, n / 65536 % 256, n / 16777216 % 256]

/-- `u32::from_le_bytes` on a 4-byte buffer (then `as usize`). -/
def fromLe32 (l : List Nat) : Nat :=
  l.getD 0 0 + 256 * l.getD 1 0 + 65536 * l.getD 2 0 + 16777216 * l.getD 3 0

theorem fromLe32_le32 (n : Nat) (h : n < 4294967296) : fromLe32 (le32 n) = n := by
  have heq : fromLe32 (le32 n) =
      n % 256 + 256 * (n / 256 % 256) + 65536 * (n / 65536 % 256) +
        16777216 * (n / 16777216 % 256) := rfl
  rw [heq]
  omega

/-! ### Device constants and open-by-serial (lines 32–33, 58–69, 106–107, 175–186) -/

def STEAM_VID : Nat := 0x28de
def STEAM_PID : Nat := 0x2300
def VIVE_VID : Nat := 0x0bb4
def VIVE_PID : Nat := 0x0342

/-- One entry of `api.device_list()`: serial number (if any), vendor id,
product id. -/
structure DeviceInfo : Type where
  serial : Option String
  vendor_id : Nat
  product_id : Nat
deriving DecidableEq, Repr

/-- `SteamDevice::open` (lines 58–69).  On success we return the
`(vendor_id, product_id, serial)` triple passed to `api.open_serial`
(the actual open is transport territory). -/
def steamOpen (devices : List DeviceInfo) (sn : String) : VResult (Nat × Nat × String) :=
  match devices.find? (fun dev => dev.serial == some sn) with
  | none => .err (Error.DeviceNotFound)
  | some device =>
    if device.vendor_id ≠ STEAM_VID ∨ device.product_id ≠ STEAM_PID then
      .err (Error.NotAVive)
    else
      .ok (device.vendor_id, device.product_id, sn)

/-- `ViveDevice::open` (lines 175–186).  NOTE: the source compares the
found device against `STEAM_VID`/`STEAM_PID`, not `VIVE_VID`/`VIVE_PID`;
this definition reproduces that comparison verbatim. -/
def viveOpen (devices : List DeviceInfo) (sn : String) : VResult (Nat × Nat × String) :=
  match devices.find? (fun dev => dev.serial == some sn) with
  | none => .err (Error.DeviceNotFound)
  | some device =>
    if device.vendor_id ≠ STEAM_VID ∨ device.product_id ≠ STEAM_PID then
      .err (Error.NotAVive)
    else
      .ok (device.vendor_id, device.product_id, sn)

/-! ### Resolution table (lines 120–166) -/

/-- The `Resolution` enum (lines 122–129). -/
inductive Resolution : Type where
  | R2448x1224f90 : Resolution
  | R2448x1224f120 : Resolution
  | R3264x1632f90 : Resolution
  | R3680x1836f90 : Resolution
  | R4896x2448f90 : Resolution
  | R4896x2448f120 : Resolution
deriving DecidableEq, Repr

/-- The numeric discriminant (`Resolution as u8`, lines 123–128). -/
def Resolution.discriminant : Resolution → Nat
  | .R2448x1224f90 => 0
  | .R2448x1224f120 => 1
  | .R3264x1632f90 => 2
  | .R3680x1836f90 => 3
  | .R4896x2448f90 => 4
  | .R4896x2448f120 => 5

/-- `Resolution::resolution` (lines 131–140). -/
def Resolution.resolution : Resolution → Nat × Nat
  | .R2448x1224f90 => (2448, 1224)
  | .R2448x1224f120 => (2448, 1224)
  | .R3264x1632f90 => (3264, 1632)
  | .R3680x1836f90 => (3680, 1836)
  | .R4896x2448f90 => (4896, 2448)
  | .R4896x2448f120 => (4896, 2448)

/-- `Resolution::frame_rate` (lines 141–150).  The source's `f32`
literals are exact decimal literals; they are modelled as the equal
rational numbers. -/
def Resolution.frame_rate : Resolution → ℚ
  | .R2448x1224f90 => 90.03
  | .R2448x1224f120 => 120.05
  | .R3264x1632f90 => 90.00
  | .R3680x1836f90 => 90.02
  | .R4896x2448f90 => 90.02
  | .R4896x2448f120 => 120.02

/-- `impl TryFrom<u8> for Resolution` (lines 152–166), as an if-chain
equivalent to the source's `match` on the raw value. -/
def Resolution.try_from (v : Nat) : Option Resolution :=
  if v = 0 then some .R2448x1224f90
  else if v = 1 then some .R2448x1224f120
  else if v = 2 then some .R3264x1632f90
  else if v = 3 then some .R3680x1836f90
  else if v = 4 then some .R4896x2448f90
  else if v = 5 then some .R4896x2448f120
  else none

/-- The fixed `(width, height, frame rate)` table exactly as the spec
states it, indexed by mode: used to compare the source's
`resolution`/`frame_rate` against the spec's words. -/
def specResTable : List ((Nat × Nat) × ℚ) :=
  [((2448, 1224), 90.03), ((2448, 1224), 120.05), ((3264, 1632), 90.00),
   ((3680, 1836), 90.02), ((4896, 2448), 90.02), ((4896, 2448), 120.02)]

/-! ### ViveDevice report codec (lines 187–219)

The transport (an open `HidDevice`) is a pair of capability functions
over an abstract state `σ`:
* `wr : σ → List Nat → Option σ` — `self.0.write(report)`; `none` is a
  `HidError`;
* `rd : σ → Option (σ × List Nat)` — `self.0.read(&mut data)`; on
  success it yields the 64-byte report the device delivered. -/

/-- `ViveDevice::write` (lines 187–193): build the 64-byte output report
`[id, data..., 0...]` and send it.  `report[1..1+data.len()]` panics when
`data.len() > 63`. -/
def viveWrite {σ : Type} (wr : σ → List Nat → Option σ) (s : σ) (id : Nat)
    (data : List Nat) : VResult σ :=
  if data.length ≤ 63 then
    match wr s (id :: (data ++ List.replicate (63 - data.length) 0)) with
    | some s1 => .ok s1
    | none => .err (Error.Hid)
  else .crash

/-- `ViveDevice::read` (lines 204–219), operating on the 64-byte report
`data` delivered by the transport.  `sp` is the strip-prefix, `outLen`
the length of the caller's `out` buffer; on success the result carries
the returned size and the bytes copied into `out[..size]`.  The `crash`
branches are the source's panics: slicing `data[1..1+sp.len()]`,
indexing `data[1+sp.len()]`, slicing
`data[sp.len()+2..sp.len()+2+size]` past the 64-byte buffer, and
`out[..size]` when `out` is shorter than `size`. -/
def vread (data : List Nat) (id : Nat) (sp : List Nat) (outLen : Nat) :
    VResult (Nat × List Nat) :=
  if data.length < 1 then .crash
  else if data.getD 0 0 ≠ id then .err (Error.ProtocolError ("wrong report id"))
  else if data.length < 1 + sp.length then .crash
  else if (data.drop 1).take sp.length ≠ sp then .err (Error.ProtocolError ("wrong prefix"))
  else if data.length ≤ 1 + sp.length then .crash
  else if 62 < data.getD (1 + sp.length) 0 then .err (Error.ProtocolError ("wrong size"))
  else if outLen < data.getD (1 + sp.length) 0 then .crash
  else if data.length < sp.length + 2 + data.getD (1 + sp.length) 0 then .crash
  else .ok (data.getD (1 + sp.length) 0,
            (data.drop (sp.length + 2)).take (data.getD (1 + sp.length) 0))

/-- One transport read followed by `ViveDevice::read` validation. -/
def viveReadStep {σ : Type} (rd : σ → Option (σ × List Nat)) (s : σ) (id : Nat)
    (sp : List Nat) (outLen : Nat) : VResult (σ × Nat × List Nat) :=
  match rd s with
  | none => .err (Error.Hid)
  | some (s1, data) =>
    match vread data id sp outLen with
    | .ok (size, payload) => .ok (s1, size, payload)
    | .err e => .err e
    | .crash => .crash
    | .diverge => .diverge

/-! ### ViveDevice::read_config (lines 236–272) -/

/-- Phase 1 of `ViveDevice::read_config` (lines 239–248): send
`[0xEA, 0xB1]` on report id 1, read the reply into the 62-byte `buf`,
require exactly 4 returned bytes and decode them as a little-endian
total length. -/
def vivePhase1 {σ : Type} (wr : σ → List Nat → Option σ)
    (rd : σ → Option (σ × List Nat)) (s : σ) : VResult (σ × Nat) :=
  (viveWrite wr s 0x01 [0xea, 0xb1]).bind fun s1 =>
  (viveReadStep rd s1 0x01 [0xea, 0xb1] 62).bind fun x =>
  if x.2.1 ≠ 4 then .err (Error.ProtocolError ("config length has 4 bytes"))
  else .ok (x.1, fromLe32 x.2.2)

/-- Phase 2 of `ViveDevice::read_config` (lines 249–262): while
`read < total`, send `[0xEB, 0xB1, 0x04, le32 read]` (a 63-byte `req`)
on report id 1, read a chunk, advance `read` by the chunk size and
append the chunk to `out`.  `fuel` bounds the number of iterations. -/
def viveLoop {σ : Type} (wr : σ → List Nat → Option σ)
    (rd : σ → Option (σ × List Nat)) (total : Nat) :
    Nat → σ → Nat → List Nat → VResult (σ × Nat × List Nat)
  | 0, _, _, _ => .diverge
  | fuel + 1, s, read, out =>
    if read < total then
      (viveWrite wr s 0x01 ([0xeb, 0xb1, 0x04] ++ le32 read ++ List.replicate 56 0)).bind
        fun s1 =>
      (viveReadStep rd s1 0x01 [0xeb, 0xb1] 62).bind fun x =>
      viveLoop wr rd total fuel x.1 (read + x.2.1) (out ++ x.2.2)
    else .ok (s, read, out)

/-- `ViveDevice::read_config` up to and including the post-loop size
check (lines 236–265): phase 1, phase 2, then
`if read != total_len { return Err(ProtocolError("config size mismatch")) }`.
Returns the final transport state and the accumulated blob. -/
def viveFetch {σ : Type} (wr : σ → List Nat → Option σ)
    (rd : σ → Option (σ × List Nat)) (fuel : Nat) (s : σ) :
    VResult (σ × List Nat) :=
  (vivePhase1 wr rd s).bind fun st =>
  (viveLoop wr rd st.2 fuel st.1 0 []).bind fun y =>
  if y.2.1 ≠ st.2 then .err (Error.ProtocolError ("config size mismatch"))
  else .ok (y.1, y.2.2)

/-- The decode tail of `ViveDevice::read_config` (lines 267–271):
`&out[128..]` (panics when the blob is shorter than 128 bytes), UTF-8
validation, then JSON parsing.  UTF-8 decoding and JSON parsing are
external collaborators, passed as capabilities `utf8` and `parse`; `β`
stands for `ViveConfig`. -/
def viveDecode {β : Type} (utf8 : List Nat → Option String)
    (parse : String → Option β) (blob : List Nat) : VResult β :=
  if blob.length < 128 then .crash
  else
    match utf8 (blob.drop 128) with
    | none => .err (Error.ProtocolError ("config is not utf-8"))
    | some str =>
      match parse str with
      | none => .err (Error.ConfigReadFailed)
      | some cfg => .ok cfg

/-- The whole of `ViveDevice::read_config` (lines 236–272). -/
def viveReadConfig {σ β : Type} (wr : σ → List Nat → Option σ)
    (rd : σ → Option (σ × List Nat)) (utf8 : List Nat → Option String)
    (parse : String → Option β) (fuel : Nat) (s : σ) : VResult β :=
  (viveFetch wr rd fuel s).bind fun r => viveDecode utf8 parse r.2

/-! ### SteamDevice::read_config (lines 70–103)

`get_feature_report` is a capability `gfr : σ → Nat → σ × Option (List Nat)`:
given the transport state and the report id placed in `report[0]`, it
returns the next state and either the 64-byte reply or a failure.  The
state advances even on failure so that flaky-transport stubs can count
attempts. -/

/-- The source's retry pattern (lines 73–79 and 84–90): attempt the
feature read; on failure, if the retry counter already exceeds 5, fail
with `ConfigReadFailed`, otherwise bump the counter and retry.  Here the
counter counts the retries still `allowed` (it starts at `6`, which is
exactly the source's count-up `read_retries` with the `> 5` check:
`allowed = 6 - read_retries`). -/
def retryAux {σ : Type} (gfr : σ → Nat → σ × Option (List Nat)) (id : Nat) :
    Nat → σ → VResult (σ × List Nat)
  | 0, s =>
    match gfr s id with
    | (s1, some rep) => .ok (s1, rep)
    | (_, none) => .err (Error.ConfigReadFailed)
  | a + 1, s =>
    match gfr s id with
    | (s1, some rep) => .ok (s1, rep)
    | (s1, none) => retryAux gfr id a s1

/-- One retried feature read with a freshly reset counter, as at
line 73 (`read_retries = 0`) and line 91 (reset after every success
before the next chunk read). -/
def retryFeatureRead {σ : Type} (gfr : σ → Nat → σ × Option (List Nat))
    (id : Nat) (s : σ) : VResult (σ × List Nat) :=
  retryAux gfr id 6 s

/-- The chunk loop of `SteamDevice::read_config` (lines 82–96): retried
feature read with id 17; stop on a zero length byte (`report[1]`);
otherwise append `report[2..2+report[1]]` to `out` — the slice panics
(`crash`) when `2 + report[1]` exceeds the 64-byte report.  Each
iteration starts with a reset retry counter, exactly as in the source
(`read_retries = 0` after every successful read). -/
def steamLoop {σ : Type} (gfr : σ → Nat → σ × Option (List Nat)) :
    Nat → σ → List Nat → VResult (σ × List Nat)
  | 0, _, _ => .diverge
  | fuel + 1, s, out =>
    match retryFeatureRead gfr 17 s with
    | .ok (s1, rep) =>
      if rep.getD 1 0 = 0 then .ok (s1, out)
      else if 2 + rep.getD 1 0 ≤ rep.length then
        steamLoop gfr fuel s1 (out ++ ((rep.drop 2).take (rep.getD 1 0)))
      else .crash
    | .err e => .err e
    | .crash => .crash
    | .diverge => .diverge

/-- The whole of `SteamDevice::read_config` (lines 70–103): a retried
init feature read with id 16 (reply unused), the chunk loop, then zlib
inflation to UTF-8 text and JSON parsing, both external collaborators
passed as capabilities (`inflate`, `parse`); either failing maps to
`ConfigReadFailed`.  `β` stands for `SteamConfig`. -/
def steamReadConfig {σ β : Type} (gfr : σ → Nat → σ × Option (List Nat))
    (inflate : List Nat → Option String) (parse : String → Option β)
    (fuel : Nat) (s : σ) : VResult β :=
  (retryFeatureRead gfr 16 s).bind fun x =>
  (steamLoop gfr fuel x.1 []).bind fun y =>
  match inflate y.2 with
  | none => .err (Error.ConfigReadFailed)
  | some str =>
    match parse str with
    | none => .err (Error.ConfigReadFailed)
    | some cfg => .ok cfg

/-! ### A well-behaved Vive device model

Used to state the reassembly claims: it holds the chunk schedule it
will serve, answers the length query with its declared `total`, serves
the chunks in order on fetch requests, and logs the offset carried by
every fetch request it receives. -/

/-- State of the model device: remaining chunk schedule, declared total
length, the reply queued by the last request, and the log of offsets
decoded from the fetch requests received so far. -/
structure VDev : Type where
  chunks : List (List Nat)
  total : Nat
  pending : Option (List Nat)
  offsets : List Nat
deriving DecidableEq, Repr

/-- Reply to the length query: report id 1, echo prefix `EA B1`, size
byte 4, the 4-byte little-endian total, zero padding to 64 bytes. -/
def lenReply (total : Nat) : List Nat :=
  1 :: 0xea :: 0xb1 :: 4 :: (le32 total ++ List.replicate 56 0)

/-- Reply serving chunk `c`: report id 1, echo prefix `EB B1`, size byte
`c.length`, the chunk, zero padding.  `self.0.read(&mut data)` fills a
fixed `[u8; 64]` buffer, so at most 64 bytes of the device's reply ever
arrive: the reply is truncated to 64 bytes (for `c.length ≤ 60` it is
exactly 64 bytes and nothing is cut). -/
def chunkReply (c : List Nat) : List Nat :=
  (1 :: 0xeb :: 0xb1 :: c.length :: (c ++ List.replicate (60 - c.length) 0)).take 64

/-- The device's write handler: a length query queues `lenReply`; a
fetch request pops the next scheduled chunk, queues its reply and logs
the request's little-endian offset; anything else is rejected. -/
def devWr (d : VDev) (report : List Nat) : Option VDev :=
  if report.take 3 = [1, 0xea, 0xb1] then
    some { d with pending := some (lenReply d.total) }
  else if report.take 4 = [1, 0xeb, 0xb1, 4] then
    match d.chunks with
    | [] => none
    | c :: rest =>
      some { d with chunks := rest, pending := some (chunkReply c),
                    offsets := d.offsets ++ [fromLe32 ((report.drop 4).take 4)] }
  else none

/-- The device's read handler: deliver the queued reply, if any. -/
def devRd (d : VDev) : Option (VDev × List Nat) :=
  match d.pending with
  | some r => some ({ d with pending := none }, r)
  | none => none

/-- The offsets a conforming device is asked for, given its declared
`total` and the chunk schedule: starting from `read`, each chunk whose
fetch happens (i.e. while `read < total`) is requested at offset
exactly `read`, the number of bytes accumulated so far. -/
def servedOffsets (total : Nat) : Nat → List (List Nat) → List Nat
  | _, [] => []
  | read, c :: cs =>
    if read < total then read :: servedOffsets total (read + c.length) cs else []

/-! ### Transport stubs for the Steam retry policy -/

/-- A feature-read stub that fails exactly `k` times and then always
succeeds with reply `rep`; its state counts the attempts made. -/
def stubK (k : Nat) (rep : List Nat) : Nat → Nat → Nat × Option (List Nat) :=
  fun s _ => (s + 1, if s < k then none else some rep)

/-- A 64-byte chunk reply with length byte 1 and payload `[7]`. -/
def chunk1Rep : List Nat := 0 :: 1 :: 7 :: List.replicate 61 0

/-- A 64-byte terminator reply (length byte 0). -/
def termRep : List Nat := 0 :: 0 :: List.replicate 62 0

/-- A two-window stub: 6 failures, one chunk reply, 6 more failures,
then the terminator.  Exercises the reset of the retry counter after a
successful read (12 failures in total, but never more than 6 in a row). -/
def gfr2 : Nat → Nat → Nat × Option (List Nat) :=
  fun s _ =>
    (s + 1,
      if s < 6 then none
      else if s = 6 then some chunk1Rep
      else if s < 13 then none
      else some termRep)

/-- A stub that always succeeds, replying with a report whose length
byte (`report[1]`) is `n`. -/
def oversizedRep (n : Nat) : List Nat := 17 :: n :: List.replicate 62 0

/-- Transport for `oversizedRep`: every feature read succeeds at once. -/
def gfrOversized (n : Nat) : Nat → Nat → Nat × Option (List Nat) :=
  fun s _ => (s + 1, some (oversizedRep n))

/-! ### Helper lemmas -/

theorem vread_ok (data : List Nat) (id : Nat) (sp : List Nat) (outLen : Nat)
    (h0 : 1 ≤ data.length)
    (hid : data.getD 0 0 = id)
    (_h1 : 1 + sp.length ≤ data.length)
    (hpre : (data.drop 1).take sp.length = sp)
    (h2 : 1 + sp.length < data.length)
    (hsz : data.getD (1 + sp.length) 0 ≤ 62)
    (hout : data.getD (1 + sp.length) 0 ≤ outLen)
    (hb : sp.length + 2 + data.getD (1 + sp.length) 0 ≤ data.length) :
    vread data id sp outLen =
      .ok (data.getD (1 + sp.length) 0,
           (data.drop (sp.length + 2)).take (data.getD (1 + sp.length) 0)) := by
  unfold vread
  rw [if_neg (by omega), if_neg (by simp only [ne_eq, not_not]; exact hid),
      if_neg (by omega), if_neg (by simp only [ne_eq, not_not]; exact hpre),
      if_neg (by omega), if_neg (by omega), if_neg (by omega), if_neg (by omega)]

theorem chunkReply_of_le (c : List Nat) (hc : c.length ≤ 60) :
    chunkReply c = 1 :: 0xeb :: 0xb1 :: c.length :: (c ++ List.replicate (60 - c.length) 0) := by
  apply List.take_of_length_le
  simp only [List.length_cons, List.length_append, List.length_replicate]
  omega

theorem chunkReply_length (c : List Nat) (hc : c.length ≤ 60) :
    (chunkReply c).length = 64 := by
  rw [chunkReply_of_le c hc]
  simp only [List.length_cons, List.length_append, List.length_replicate]
  omega

theorem vread_chunkReply (c : List Nat) (hc : c.length ≤ 60) :
    vread (chunkReply c) 1 [0xeb, 0xb1] 62 = .ok (c.length, c) := by
  rw [chunkReply_of_le c hc]
  have hlen : (1 :: 0xeb :: 0xb1 :: c.length ::
      (c ++ List.replicate (60 - c.length) 0) : List Nat).length = 64 := by
    simp only [List.length_cons, List.length_append, List.length_replicate]
    omega
  have hsp : ([(0xeb : Nat), 0xb1]).length = 2 := rfl
  have hd : (1 :: 0xeb :: 0xb1 :: c.length ::
      (c ++ List.replicate (60 - c.length) 0) : List Nat).getD
        (1 + [(0xeb : Nat), 0xb1].length) 0 = c.length := rfl
  rw [vread_ok (1 :: 0xeb :: 0xb1 :: c.length :: (c ++ List.replicate (60 - c.length) 0))
      1 [0xeb, 0xb1] 62 (by omega) rfl (by omega) rfl
      (by omega) (by omega) (by omega) (by omega)]
  have hdrop : (1 :: 0xeb :: 0xb1 :: c.length ::
      (c ++ List.replicate (60 - c.length) 0) : List Nat).drop
        ([(0xeb : Nat), 0xb1].length + 2) = c ++ List.replicate (60 - c.length) 0 := rfl
  rw [hd, hdrop, List.take_left]

theorem vread_lenReply (t : Nat) :
    vread (lenReply t) 1 [0xea, 0xb1] 62 = .ok (4, le32 t) := rfl

theorem stubK_none (k : Nat) (rep : List Nat) (s id : Nat) (h : s < k) :
    stubK k rep s id = (s + 1, none) := by
  simp [stubK, h]

theorem stubK_some (k : Nat) (rep : List Nat) (s id : Nat) (h : k ≤ s) :
    stubK k rep s id = (s + 1, some rep) := by
  simp only [stubK, if_neg (by omega : ¬ s < k)]

/-- Unfolding of `retryAux` on a stub that fails exactly `k` times and
then succeeds: starting at attempt `s` with `a` retries still allowed,
the read succeeds exactly when the remaining failures fit the budget. -/
theorem retryAux_stubK (rep : List Nat) (id : Nat) :
    ∀ (a k s : Nat),
      retryAux (stubK k rep) id a s =
        if k ≤ s then .ok (s + 1, rep)
        else if k - s ≤ a then .ok (k + 1, rep)
        else .err (Error.ConfigReadFailed) := by
  intro a
  induction a with
  | zero =>
    intro k s
    by_cases h : k ≤ s
    · rw [if_pos h]
      simp only [retryAux, stubK_some k rep s id h]
    · rw [if_neg h, if_neg (by omega)]
      simp only [retryAux, stubK_none k rep s id (by omega)]
  | succ a ih =>
    intro k s
    by_cases h : k ≤ s
    · rw [if_pos h]
      simp only [retryAux, stubK_some k rep s id h]
    · rw [if_neg h]
      simp only [retryAux, stubK_none k rep s id (by omega)]
      rw [ih k (s + 1)]
      by_cases h2 : k ≤ s + 1
      · have hk : k = s + 1 := by omega
        subst hk
        rw [if_pos (le_refl _), if_pos (by omega)]
      · rw [if_neg h2]
        by_cases h3 : k - (s + 1) ≤ a
        · rw [if_pos h3, if_pos (by omega)]
        · rw [if_neg h3, if_neg (by omega)]

theorem viveLoop_exit {σ : Type} (wr : σ → List Nat → Option σ)
    (rd : σ → Option (σ × List Nat)) (total f : Nat) (s : σ) (read : Nat)
    (out : List Nat) (h : ¬ read < total) :
    viveLoop wr rd total (f + 1) s read out = .ok (s, read, out) := by
  simp only [viveLoop, if_neg h]

/-- One iteration of the fetch loop against the model device: the
request carries offset `read`, the device serves the next scheduled
chunk `c` and logs `read`, and the loop advances by `c.length`. -/
theorem viveLoop_step (total : Nat) (c : List Nat) (cs : List (List Nat))
    (log out : List Nat) (read f : Nat)
    (hr : read < total) (hc : c.length ≤ 60) (h32 : read < 4294967296) :
    viveLoop devWr devRd total (f + 1) ⟨c :: cs, total, none, log⟩ read out =
      viveLoop devWr devRd total f ⟨cs, total, none, log ++ [read]⟩
        (read + c.length) (out ++ c) := by
  have hwrite : viveWrite devWr (⟨c :: cs, total, none, log⟩ : VDev) 0x01
      ([0xeb, 0xb1, 0x04] ++ le32 read ++ List.replicate 56 0) =
      .ok ⟨cs, total, some (chunkReply c), log ++ [fromLe32 (le32 read)]⟩ := rfl
  have hread : viveReadStep devRd
      (⟨cs, total, some (chunkReply c), log ++ [fromLe32 (le32 read)]⟩ : VDev)
      0x01 [0xeb, 0xb1] 62 =
      .ok (⟨cs, total, none, log ++ [fromLe32 (le32 read)]⟩, c.length, c) := by
    simp only [viveReadStep, devRd]
    rw [vread_chunkReply c hc]
  simp only [viveLoop, if_pos hr, hwrite, hread, VResult.bind_ok]
  rw [fromLe32_le32 read h32]

/-- Running the fetch loop against the model device with a chunk
schedule whose lengths sum to exactly the remaining bytes: the loop
accumulates the concatenation of the chunks, ends with `read = total`,
and the device has been asked for exactly the offsets `servedOffsets`,
i.e. each request carried the number of bytes accumulated so far. -/
theorem viveLoop_good (total : Nat) (h32 : total < 4294967296) :
    ∀ (cs : List (List Nat)), (∀ c ∈ cs, c.length ≤ 60) →
    ∀ (fuel read : Nat) (out log : List Nat),
      read + (cs.map List.length).sum = total →
      cs.length < fuel →
      ∃ rest, viveLoop devWr devRd total fuel ⟨cs, total, none, log⟩ read out =
        .ok (⟨rest, total, none, log ++ servedOffsets total read cs⟩, total,
             out ++ cs.flatten) := by
  intro cs
  induction cs with
  | nil =>
    intro _ fuel read out log hsum hfuel
    obtain ⟨f, rfl⟩ : ∃ f, fuel = f + 1 := ⟨fuel - 1, by omega⟩
    have hread : read = total := by simpa using hsum
    refine ⟨[], ?_⟩
    rw [viveLoop_exit devWr devRd total f _ read out (by omega)]
    simp [servedOffsets, hread]
  | cons c cs ih =>
    intro hc fuel read out log hsum hfuel
    obtain ⟨f, rfl⟩ : ∃ f, fuel = f + 1 := ⟨fuel - 1, by omega⟩
    rw [List.map_cons, List.sum_cons] at hsum
    by_cases hr : read < total
    · have hclen : c.length ≤ 60 := hc c (by simp)
      rw [viveLoop_step total c cs log out read f hr hclen (by omega)]
      obtain ⟨rest, hres⟩ := ih (fun c' hc' => hc c' (by simp [hc'])) f
        (read + c.length) (out ++ c) (log ++ [read]) (by omega)
        (by simp only [List.length_cons] at hfuel; omega)
      refine ⟨rest, ?_⟩
      rw [hres]
      have hso : servedOffsets total read (c :: cs) =
          read :: servedOffsets total (read + c.length) cs := by
        simp only [servedOffsets, if_pos hr]
      rw [hso]
      simp [List.append_assoc]
    · have hread : read = total := by omega
      refine ⟨c :: cs, ?_⟩
      rw [viveLoop_exit devWr devRd total f _ read out hr]
      have hflat : (c :: cs).flatten = [] := by
        apply List.length_eq_zero.mp
        rw [List.length_flatten]
        simp only [List.map_cons, List.sum_cons]
        omega
      have hso : servedOffsets total read (c :: cs) = [] := by
        simp only [servedOffsets, if_neg hr]
      rw [hflat, hso]
      simp [hread]

theorem vivePhase1_good (cs : List (List Nat)) (total : Nat) (log : List Nat)
    (h32 : total < 4294967296) :
    vivePhase1 devWr devRd ⟨cs, total, none, log⟩ =
      .ok (⟨cs, total, none, log⟩, total) := by
  have hw : viveWrite devWr (⟨cs, total, none, log⟩ : VDev) 0x01 [0xea, 0xb1] =
      .ok ⟨cs, total, some (lenReply total), log⟩ := rfl
  have hr : viveReadStep devRd (⟨cs, total, some (lenReply total), log⟩ : VDev)
      0x01 [0xea, 0xb1] 62 = .ok (⟨cs, total, none, log⟩, 4, le32 total) := by
    simp only [viveReadStep, devRd]
    rw [vread_lenReply total]
  simp only [vivePhase1, hw, hr, VResult.bind_ok]
  rw [if_neg (by omega), fromLe32_le32 total h32]

/-- `viveFetch` against the model device: with a conforming chunk
schedule the full reassembly succeeds, the blob is the concatenation of
the chunks, and the requested offsets are exactly the running byte
counts. -/
theorem viveFetch_good (cs : List (List Nat)) (total fuel : Nat)
    (hc : ∀ c ∈ cs, c.length ≤ 60)
    (hsum : (cs.map List.length).sum = total)
    (h32 : total < 4294967296)
    (hfuel : cs.length < fuel) :
    ∃ rest, viveFetch devWr devRd fuel ⟨cs, total, none, []⟩ =
      .ok (⟨rest, total, none, servedOffsets total 0 cs⟩, cs.flatten) := by
  obtain ⟨rest, hloop⟩ := viveLoop_good total h32 cs hc fuel 0 [] [] (by omega) hfuel
  refine ⟨rest, ?_⟩
  simp only [viveFetch]
  rw [vivePhase1_good cs total [] h32]
  simp only [VResult.bind_ok]
  rw [hloop]
  simp only [VResult.bind_ok]
  rw [if_neg (by omega)]
  simp

/-! ### Claims -/

/-- C1: the claim says `open(sn)` fails with the wrong-device-family
error whenever the matching device's vendor/product pair differs from
the family's expected pair — for `ViveDevice::open` the pair
`VIVE_VID = 0x0bb4` / `VIVE_PID = 0x0342`.  The code does not do this:
`ViveDevice::open` validates against `STEAM_VID`/`STEAM_PID` (a
copy-paste of `SteamDevice::open`).  Evaluating the code: a device with
matching serial and the Steam pair `0x28de`/`0x2300` — which differs
from the Vive family's pair — is opened, and conversely a genuine Vive
device (pair `0x0bb4`/`0x0342`) is rejected with `NotAVive`. -/
theorem C1_viveOpen_checks_steam_pair :
    viveOpen [⟨some ("SN1"), 0x28de, 0x2300⟩] "SN1" = .ok (0x28de, 0x2300, "SN1") ∧
    ¬ ((0x28de : Nat) = VIVE_VID ∧ (0x2300 : Nat) = VIVE_PID) ∧
    viveOpen [⟨some ("SN2"), VIVE_VID, VIVE_PID⟩] "SN2" = .err (Error.NotAVive) := by
  refine ⟨by decide, by decide, by decide⟩

/-- C2 counterexample: the claim says the retried read step fails with
config-read-failed when the transport fails `k ≥ 6` consecutive times.
At `k = 6` the code succeeds: the source checks `read_retries > 5`
before incrementing, so it tolerates 6 consecutive failures and only
fails on the 7th. -/
theorem C2_counterexample :
    retryFeatureRead (stubK 6 termRep) 17 0 ≠ .err (Error.ConfigReadFailed) ∧
    retryFeatureRead (stubK 6 termRep) 17 0 = .ok (7, termRep) := by
  refine ⟨by decide, by decide⟩

/-- C2 (amended): with a transport stub failing exactly `k` times then
succeeding, `SteamDevice::read_config`'s retried read step succeeds
when `k ≤ 6` and fails with the config-read-failed error when `k ≥ 7`;
the retry counter resets to zero on any successful read — shown by the
two-window stub `gfr2` (6 failures, a chunk, 6 more failures, the
terminator: 12 failures in total, yet the loop succeeds because each
window restarts the counter). -/
theorem C2_retry_policy (k : Nat) (rep : List Nat) :
    (k ≤ 6 → retryFeatureRead (stubK k rep) 17 0 = .ok (k + 1, rep)) ∧
    (7 ≤ k → retryFeatureRead (stubK k rep) 17 0 = .err (Error.ConfigReadFailed)) ∧
    steamLoop gfr2 2 0 [] = .ok (14, [7]) := by
  refine ⟨?_, ?_, by decide⟩
  · intro hk
    rw [retryFeatureRead, retryAux_stubK rep 17 6 k 0]
    by_cases h0 : k = 0
    · subst h0
      rw [if_pos (by omega)]
    · rw [if_neg (by omega), if_pos (by omega)]
  · intro hk
    rw [retryFeatureRead, retryAux_stubK rep 17 6 k 0]
    rw [if_neg (by omega), if_neg (by omega)]

/-- C2 witness: the amended retry policy at `k = 2` (succeeds) and
`k = 9` (fails). -/
theorem C2_retry_policy_witness :
    retryFeatureRead (stubK 2 termRep) 17 0 = .ok (3, termRep) ∧
    retryFeatureRead (stubK 9 termRep) 17 0 = .err (Error.ConfigReadFailed) :=
  ⟨(C2_retry_policy 2 termRep).1 (by decide), (C2_retry_policy 9 termRep).2.1 (by decide)⟩

/-- C3 counterexample: the claim (via its cited symbol) says the
post-loop mismatch check fails with `Error::ConfigSizeMismatch`.  On an
over-delivering device (declared total 3, one 4-byte chunk) the loop
terminates with accumulated length 4 ≠ 3 and the code fails with
`ProtocolError("config size mismatch")`, which is a different value of
the error enum: `ConfigSizeMismatch` is never constructed. -/
theorem C3_counterexample :
    viveFetch devWr devRd 2 ⟨[[9, 9, 9, 9]], 3, none, []⟩ =
      .err (Error.ProtocolError ("config size mismatch")) ∧
    VResult.err (α := VDev × List Nat) (Error.ProtocolError ("config size mismatch")) ≠
      .err (Error.ConfigSizeMismatch) := by
  refine ⟨by decide, by decide⟩

/-- C3 (amended): whenever the paginated fetch loop of
`ViveDevice::read_config` terminates with accumulated length ≠ declared
total, the operation fails with the size-mismatch protocol error
`ProtocolError("config size mismatch")` (not the unused
`ConfigSizeMismatch` variant); over-delivery is caught by this check
(witness below). -/
theorem C3_size_mismatch {σ : Type} (wr : σ → List Nat → Option σ)
    (rd : σ → Option (σ × List Nat)) (fuel : Nat) (s s1 s2 : σ)
    (total read : Nat) (out : List Nat)
    (hp : vivePhase1 wr rd s = .ok (s1, total))
    (hl : viveLoop wr rd total fuel s1 0 [] = .ok (s2, read, out))
    (hm : read ≠ total) :
    viveFetch wr rd fuel s = .err (Error.ProtocolError ("config size mismatch")) := by
  simp only [viveFetch, hp, VResult.bind_ok, hl]
  rw [if_pos hm]

/-- C3 witness: an over-delivering device (declared total 3, one 4-byte
chunk) runs into the size-mismatch error via `C3_size_mismatch`. -/
theorem C3_size_mismatch_witness :
    viveFetch devWr devRd 2 (⟨[[9, 9, 9, 8]], 3, none, []⟩ : VDev) =
      .err (Error.ProtocolError ("config size mismatch")) :=
  C3_size_mismatch devWr devRd 2 _ (⟨[[9, 9, 9, 8]], 3, none, []⟩ : VDev)
    (⟨[], 3, none, [0]⟩ : VDev) 3 4 [9, 9, 9, 8] (by decide) (by decide) (by decide)

set_option maxRecDepth 4000 in
/-- C4 counterexample: the claim quantifies over chunk sequences with
lengths ≤ 62.  A single chunk of length 61 satisfies that bound and
sums to the declared total 61, yet the reassembly panics (`crash`)
instead of accumulating it: `read`'s size check admits 61 but the
source slice `data[4..4+61]` overruns the 64-byte report. -/
theorem C4_counterexample :
    viveFetch devWr devRd 2 ⟨[List.replicate 61 7], 61, none, []⟩ = .crash ∧
    (List.replicate (61 : Nat) 7).length ≤ 62 ∧
    (([List.replicate (61 : Nat) 7]).map List.length).sum = 61 := by
  refine ⟨by decide, by decide, by decide⟩

/-- C4 (amended): for every sequence of reply chunks whose lengths are
each ≤ 60 (not 62: 61- and 62-byte chunks crash, see the
counterexample) and sum exactly to the declared 32-bit total,
`ViveDevice::read_config`'s two-phase reassembly accumulates a blob of
length exactly `total`, byte-for-byte equal to the concatenation of the
chunks in order, and every fetch request carries as offset exactly the
number of bytes accumulated so far (`servedOffsets`, the running byte
counts, matched against the offsets the model device decoded from the
wire). -/
theorem C4_reassembly (cs : List (List Nat)) (total fuel : Nat)
    (hc : ∀ c ∈ cs, c.length ≤ 60)
    (hsum : (cs.map List.length).sum = total)
    (h32 : total < 4294967296)
    (hfuel : cs.length < fuel) :
    ∃ rest, viveFetch devWr devRd fuel ⟨cs, total, none, []⟩ =
      .ok (⟨rest, total, none, servedOffsets total 0 cs⟩, cs.flatten) ∧
      cs.flatten.length = total := by
  obtain ⟨rest, h⟩ := viveFetch_good cs total fuel hc hsum h32 hfuel
  exact ⟨rest, h, by rw [List.length_flatten]; exact hsum⟩

/-- C4 witness: two chunks `[1,2,3]` and `[4,5]`, total 5. -/
theorem C4_reassembly_witness :
    ∃ rest, viveFetch devWr devRd 3 ⟨[[1, 2, 3], [4, 5]], 5, none, []⟩ =
      .ok (⟨rest, 5, none, servedOffsets 5 0 [[1, 2, 3], [4, 5]]⟩,
           ([[1, 2, 3], [4, 5]] : List (List Nat)).flatten) ∧
      ([[1, 2, 3], [4, 5]] : List (List Nat)).flatten.length = 5 :=
  C4_reassembly [[1, 2, 3], [4, 5]] 5 3
    (by intro c hc; fin_cases hc <;> decide) (by decide) (by decide) (by decide)

/-- C5: for every `v < 6`, `Resolution::try_from(v)` succeeds with the
mode whose discriminant is `v` and whose `resolution`/`frame_rate`
equal the fixed table entry; for every `v ≥ 6` it fails rather than
defaulting. -/
theorem C5_resolution_table (v : Nat) :
    (v < 6 → ∃ r, Resolution.try_from v = some r ∧ r.discriminant = v ∧
      specResTable.getD v ((0, 0), 0) = (r.resolution, r.frame_rate)) ∧
    (6 ≤ v → Resolution.try_from v = none) := by
  constructor
  · intro hv
    interval_cases v
    · exact ⟨Resolution.R2448x1224f90, rfl, rfl, rfl⟩
    · exact ⟨Resolution.R2448x1224f120, rfl, rfl, rfl⟩
    · exact ⟨Resolution.R3264x1632f90, rfl, rfl, rfl⟩
    · exact ⟨Resolution.R3680x1836f90, rfl, rfl, rfl⟩
    · exact ⟨Resolution.R4896x2448f90, rfl, rfl, rfl⟩
    · exact ⟨Resolution.R4896x2448f120, rfl, rfl, rfl⟩
  · intro hv
    unfold Resolution.try_from
    rw [if_neg (by omega), if_neg (by omega), if_neg (by omega), if_neg (by omega),
        if_neg (by omega), if_neg (by omega)]

/-- C5 witness: the table property at `v = 2`, rejection at `v = 9`. -/
theorem C5_resolution_table_witness :
    (∃ r, Resolution.try_from 2 = some r ∧ r.discriminant = 2 ∧
      specResTable.getD 2 ((0, 0), 0) = (r.resolution, r.frame_rate)) ∧
    Resolution.try_from 9 = none :=
  ⟨(C5_resolution_table 2).1 (by omega), (C5_resolution_table 9).2 (by omega)⟩

/-- C6 counterexample: the claim says that once the three checks pass
(report id, prefix, declared length ≤ 62) the read copies the declared
number of bytes and returns the count.  A report with matching id 1,
matching 2-byte prefix `EB B1` and declared length 61 passes all three
checks, yet the call crashes (source slice `data[4..65]` of a 64-byte
buffer) instead of returning 61. -/
theorem C6_counterexample :
    vread ([1, 0xeb, 0xb1, 61] ++ List.replicate 60 0) 1 [0xeb, 0xb1] 62 = .crash ∧
    ([1, 0xeb, 0xb1, 61] ++ List.replicate (60 : Nat) 0).length = 64 ∧
    ([1, 0xeb, 0xb1, 61] ++ List.replicate (60 : Nat) 0).getD 3 0 ≤ 62 := by
  refine ⟨by decide, by decide, by decide⟩

/-- C6 (amended): for every 64-byte report, `ViveDevice::read` fails
with a protocol error if byte 0 ≠ id, else if the following bytes ≠
strip-prefix, else if the declared length exceeds 62; otherwise —
provided additionally that the payload window fits the report
(`prefix length + 2 + size ≤ 64`) and the out buffer is at least `size`
long (the declared-length check alone does not guarantee either; the
call panics when they fail, see the counterexample) — it copies exactly
`size` payload bytes and returns that count. -/
theorem C6_read_spec (data : List Nat) (id : Nat) (sp : List Nat) (outLen : Nat)
    (h64 : data.length = 64) (hsp : sp.length + 2 ≤ 64) :
    (data.getD 0 0 ≠ id →
      vread data id sp outLen = .err (Error.ProtocolError ("wrong report id"))) ∧
    (data.getD 0 0 = id → (data.drop 1).take sp.length ≠ sp →
      vread data id sp outLen = .err (Error.ProtocolError ("wrong prefix"))) ∧
    (data.getD 0 0 = id → (data.drop 1).take sp.length = sp →
      62 < data.getD (1 + sp.length) 0 →
      vread data id sp outLen = .err (Error.ProtocolError ("wrong size"))) ∧
    (data.getD 0 0 = id → (data.drop 1).take sp.length = sp →
      data.getD (1 + sp.length) 0 ≤ 62 →
      data.getD (1 + sp.length) 0 ≤ outLen →
      sp.length + 2 + data.getD (1 + sp.length) 0 ≤ 64 →
      vread data id sp outLen =
        .ok (data.getD (1 + sp.length) 0,
             (data.drop (sp.length + 2)).take (data.getD (1 + sp.length) 0))) := by
  refine ⟨?_, ?_, ?_, ?_⟩
  · intro h
    unfold vread
    rw [if_neg (by omega), if_pos h]
  · intro h1 h2
    unfold vread
    rw [if_neg (by omega), if_neg (by simp only [ne_eq, not_not]; exact h1),
        if_neg (by omega), if_pos h2]
  · intro h1 h2 h3
    unfold vread
    rw [if_neg (by omega), if_neg (by simp only [ne_eq, not_not]; exact h1),
        if_neg (by omega), if_neg (by simp only [ne_eq, not_not]; exact h2),
        if_neg (by omega), if_pos h3]
  · intro h1 h2 h3 h4 h5
    exact vread_ok data id sp outLen (by omega) h1 (by omega) h2 (by omega)
      (by omega) h4 (by omega)

/-- C6 witness: a well-formed report (id 1, prefix `EB B1`, declared
length 3, payload `[10,11,12]`) is read successfully via
`C6_read_spec`. -/
theorem C6_read_spec_witness :
    vread ([1, 0xeb, 0xb1, 3, 10, 11, 12] ++ List.replicate 57 0) 1 [0xeb, 0xb1] 62 =
      .ok (3, [10, 11, 12]) := by
  have h := (C6_read_spec ([1, 0xeb, 0xb1, 3, 10, 11, 12] ++ List.replicate 57 0) 1
    [0xeb, 0xb1] 62 (by decide) (by decide)).2.2.2
    (by decide) (by decide) (by decide) (by decide) (by decide)
  rw [h]
  decide

/-- C7: given a fully reassembled config blob (model device, conforming
chunk schedule, total ≥ 128), `ViveDevice::read_config` discards
exactly the first 128 bytes (`drop 128` of the concatenated blob),
fails with `ProtocolError("config is not utf-8")` when the remainder is
not valid UTF-8, fails with `ConfigReadFailed` on malformed JSON, and
on success returns exactly the JSON decoding of the blob minus its
first 128 bytes. -/
theorem C7_decode (cs : List (List Nat)) (total fuel : Nat) (β : Type)
    (utf8 : List Nat → Option String) (parse : String → Option β)
    (hc : ∀ c ∈ cs, c.length ≤ 60)
    (hsum : (cs.map List.length).sum = total)
    (h32 : total < 4294967296)
    (hfuel : cs.length < fuel)
    (hbig : 128 ≤ total) :
    (utf8 (cs.flatten.drop 128) = none →
      viveReadConfig devWr devRd utf8 parse fuel ⟨cs, total, none, []⟩ =
        .err (Error.ProtocolError ("config is not utf-8"))) ∧
    (∀ str, utf8 (cs.flatten.drop 128) = some str → parse str = none →
      viveReadConfig devWr devRd utf8 parse fuel ⟨cs, total, none, []⟩ =
        .err (Error.ConfigReadFailed)) ∧
    (∀ str cfg, utf8 (cs.flatten.drop 128) = some str → parse str = some cfg →
      viveReadConfig devWr devRd utf8 parse fuel ⟨cs, total, none, []⟩ = .ok cfg) := by
  obtain ⟨rest, hfetch⟩ := viveFetch_good cs total fuel hc hsum h32 hfuel
  have hflen : cs.flatten.length = total := by rw [List.length_flatten]; exact hsum
  have hrc : viveReadConfig devWr devRd utf8 parse fuel ⟨cs, total, none, []⟩ =
      viveDecode utf8 parse cs.flatten := by
    simp only [viveReadConfig, hfetch, VResult.bind_ok]
  refine ⟨?_, ?_, ?_⟩
  · intro hu
    rw [hrc]
    unfold viveDecode
    rw [if_neg (by omega), hu]
  · intro str hu hp
    rw [hrc]
    unfold viveDecode
    rw [if_neg (by omega), hu]
    show (match parse str with
      | none => VResult.err (Error.ConfigReadFailed)
      | some cfg => VResult.ok cfg) = VResult.err (Error.ConfigReadFailed)
    rw [hp]
  · intro str cfg hu hp
    rw [hrc]
    unfold viveDecode
    rw [if_neg (by omega), hu]
    show (match parse str with
      | none => VResult.err (Error.ConfigReadFailed)
      | some c => VResult.ok c) = VResult.ok cfg
    rw [hp]

set_option maxRecDepth 8000 in
/-- C7 witness: a 128-byte blob (three chunks), a UTF-8 capability that
decodes the empty remainder to `"E"` and a parser mapping `"E"` to `7`:
read_config returns `7`. -/
theorem C7_decode_witness :
    viveReadConfig devWr devRd
      (fun l => if l = [] then some ("E") else none)
      (fun s => if s = "E" then some (7 : Nat) else none) 4
      ⟨[List.replicate 60 0, List.replicate 60 0, List.replicate 8 0], 128, none, []⟩ =
      .ok 7 :=
  (C7_decode [List.replicate 60 0, List.replicate 60 0, List.replicate 8 0] 128 4 Nat
    (fun l => if l = [] then some ("E") else none)
    (fun s => if s = "E" then some (7 : Nat) else none)
    (by intro c hc; fin_cases hc <;> decide) (by decide) (by decide) (by decide)
    (by decide)).2.2 ("E") 7 (by decide) (by decide)

/-- C8: when the device's declared total config length is below 128 and
the reassembly completes, `ViveDevice::read_config` panics (`crash`) at
the unconditional `&out[128..]` slice instead of returning an error —
for any UTF-8/JSON capabilities, which are never consulted. -/
theorem C8_short_blob (cs : List (List Nat)) (total fuel : Nat) (β : Type)
    (utf8 : List Nat → Option String) (parse : String → Option β)
    (hc : ∀ c ∈ cs, c.length ≤ 60)
    (hsum : (cs.map List.length).sum = total)
    (hfuel : cs.length < fuel)
    (hsmall : total < 128) :
    viveReadConfig devWr devRd utf8 parse fuel ⟨cs, total, none, []⟩ = .crash := by
  obtain ⟨rest, hfetch⟩ := viveFetch_good cs total fuel hc hsum (by omega) hfuel
  have hflen : cs.flatten.length = total := by rw [List.length_flatten]; exact hsum
  simp only [viveReadConfig, hfetch, VResult.bind_ok]
  unfold viveDecode
  rw [if_pos (by omega)]

/-- C8 witness: a 3-byte config (single chunk `[1,2,3]`) crashes. -/
theorem C8_short_blob_witness :
    viveReadConfig devWr devRd (fun _ => some ("x")) (fun _ => some (0 : Nat)) 2
      ⟨[[1, 2, 3]], 3, none, []⟩ = .crash :=
  C8_short_blob [[1, 2, 3]] 3 2 Nat (fun _ => some ("x")) (fun _ => some (0 : Nat))
    (by intro c hc; fin_cases hc <;> decide) (by decide) (by decide) (by decide)

/-- C9: `SteamDevice::read_config` appends `report[2..2+n]` with `n`
the length byte at index 1 and no upper bound check: for every reply
whose length byte exceeds 62 the slice end `2 + n` exceeds the 64-byte
report and the operation panics (`crash`) instead of failing with a
protocol error. -/
theorem C9_oversized_length_byte (β : Type) (inflate : List Nat → Option String)
    (parse : String → Option β) (n : Nat) (h62 : 62 < n) (h255 : n ≤ 255) :
    steamReadConfig (gfrOversized n) inflate parse 1 0 = .crash := by
  have hinit : retryFeatureRead (gfrOversized n) 16 0 = .ok (1, oversizedRep n) := rfl
  have hchunk : retryFeatureRead (gfrOversized n) 17 1 = .ok (2, oversizedRep n) := rfl
  have hgd : (oversizedRep n).getD 1 0 = n := rfl
  have hlen : (oversizedRep n).length = 64 := by
    simp only [oversizedRep, List.length_cons, List.length_replicate]
  have hloop : steamLoop (gfrOversized n) 1 1 [] = .crash := by
    simp only [steamLoop, hchunk]
    rw [hgd]
    rw [if_neg (by omega), if_neg (by rw [hlen]; omega)]
  simp only [steamReadConfig, hinit, VResult.bind_ok]
  rw [hloop]
  rfl

/-- C9 witness: a reply with length byte 63 crashes the Steam config
read. -/
theorem C9_oversized_length_byte_witness :
    steamReadConfig (gfrOversized 63) (fun _ => none) (fun _ => (none : Option Nat))
      1 0 = .crash :=
  C9_oversized_length_byte Nat (fun _ => none) (fun _ => none) 63 (by decide) (by decide)

/-- C10: `ViveDevice::read`'s declared-length check (≤ 62) is
insufficient when the strip-prefix is non-empty: whenever the id,
prefix, size and out-buffer checks all pass but
`prefix length + 2 + size` exceeds the 64-byte report, the call panics
(`crash`) instead of returning a protocol error — in particular for the
2-byte prefix used by `read_config` with declared length 61 or 62
(witness below at 62). -/
theorem C10_prefix_window_crash (data : List Nat) (id : Nat) (sp : List Nat)
    (outLen : Nat)
    (h64 : data.length = 64)
    (hid : data.getD 0 0 = id)
    (hpre : (data.drop 1).take sp.length = sp)
    (hsp : sp.length + 2 ≤ 64)
    (hsz : data.getD (1 + sp.length) 0 ≤ 62)
    (hout : data.getD (1 + sp.length) 0 ≤ outLen)
    (hover : 64 < sp.length + 2 + data.getD (1 + sp.length) 0) :
    vread data id sp outLen = .crash := by
  unfold vread
  rw [if_neg (by omega), if_neg (by simp only [ne_eq, not_not]; exact hid),
      if_neg (by omega), if_neg (by simp only [ne_eq, not_not]; exact hpre),
      if_neg (by omega), if_neg (by omega), if_neg (by omega), if_pos (by omega)]

/-- C10 witness: the `read_config` configuration — 2-byte prefix
`EB B1`, declared length 62 (which passes the ≤ 62 check) — crashes. -/
theorem C10_prefix_window_crash_witness :
    vread ([1, 0xeb, 0xb1, 62] ++ List.replicate 60 0) 1 [0xeb, 0xb1] 62 = .crash :=
  C10_prefix_window_crash ([1, 0xeb, 0xb1, 62] ++ List.replicate 60 0) 1 [0xeb, 0xb1]
    62 (by decide) (by decide) (by decide) (by decide) (by decide) (by decide)
    (by decide)

end ViveHid
